import Mathlib

/-!
Verification of the disk-layout / encryption / mount-ordering / bootloader
engine of the archinstoo repository, as a shallow embedding in Lean.

Conventions used throughout:
* Python `Path` values are modelled as plain `String`s holding the POSIX
  path text; Python compares `PurePosixPath` objects by their string
  representation, which we model with an explicit lexicographic
  byte-order comparison (`path_le`).
* machine integers are `Nat` (all quantities involved are non-negative
  byte counts and sizes);
* fallible code returns `Except`/`Option`;
* side effects relevant to the claims (package strap, file writes,
  LUKS key-slot additions) are reified as explicit effect lists,
  in program order.

Parts of the repository's device model (`lib/models/device.py`,
`lib/luks.py`, the device handler) are not part of the source tree
that was provided; definitions taken from the specification instead of
the source are explicitly marked with a doc comment starting with
`Modelled from the spec:`.
-/

/-- Lexicographic comparison on character lists by code point; this is the
order Python uses for `str` (and hence for `PurePosixPath`, which compares
as its string form). -/
def charListLe : List Char → List Char → Bool
  | [], _ => true
  | _ :: _, [] => false
  | a :: as, b :: bs =>
      if a.toNat < b.toNat then true
      else if b.toNat < a.toNat then false
      else charListLe as bs

/-- Order on path strings, mirroring Python `PurePosixPath.__lt__` (plain
lexicographic comparison of the path text). -/
def path_le (a b : String) : Bool := charListLe a.data b.data

theorem charListLe_trans (a b c : List Char) (hab : charListLe a b = true)
    (hbc : charListLe b c = true) : charListLe a c = true := by
  induction a generalizing b c with
  | nil => simp [charListLe]
  | cons x xs ih =>
    cases b with
    | nil => simp [charListLe] at hab
    | cons y ys =>
      cases c with
      | nil => simp [charListLe] at hbc
      | cons z zs =>
        simp only [charListLe] at hab hbc ⊢
        by_cases hxy : x.toNat < y.toNat
        · by_cases hyz : y.toNat < z.toNat
          · simp [Nat.lt_trans hxy hyz]
          · simp only [hyz, if_false] at hbc
            by_cases hzy : z.toNat < y.toNat
            · simp [hzy] at hbc
            · have : y.toNat = z.toNat := Nat.le_antisymm (Nat.le_of_not_lt hzy) (Nat.le_of_not_lt hyz)
              simp [this ▸ hxy]
        · simp only [hxy, if_false] at hab
          by_cases hyx : y.toNat < x.toNat
          · simp [hyx] at hab
          · simp only [hyx, if_false] at hab
            have hxyeq : x.toNat = y.toNat := Nat.le_antisymm (Nat.le_of_not_lt hyx) (Nat.le_of_not_lt hxy)
            by_cases hyz : y.toNat < z.toNat
            · simp [hxyeq ▸ hyz]
            · simp only [hyz, if_false] at hbc
              by_cases hzy : z.toNat < y.toNat
              · simp [hzy] at hbc
              · simp only [hzy, if_false] at hbc
                have hyzeq : y.toNat = z.toNat := Nat.le_antisymm (Nat.le_of_not_lt hzy) (Nat.le_of_not_lt hyz)
                have h1 : ¬ x.toNat < z.toNat := by omega
                have h2 : ¬ z.toNat < x.toNat := by omega
                simp only [h1, h2, if_false]
                exact ih ys zs hab hbc

theorem charListLe_total (a b : List Char) :
    charListLe a b = true ∨ charListLe b a = true := by
  induction a generalizing b with
  | nil => left; simp [charListLe]
  | cons x xs ih =>
    cases b with
    | nil => right; simp [charListLe]
    | cons y ys =>
      simp only [charListLe]
      by_cases hxy : x.toNat < y.toNat
      · left; simp [hxy]
      · by_cases hyx : y.toNat < x.toNat
        · right; simp [hyx]
        · simpa [hxy, hyx] using ih ys

/-! ## Size / unit arithmetic -/

/-- Modelled from the spec: the unit enumeration of the `Size` value type
(`lib/models/device.py` is not in the provided source tree).  Spec §3:
`unit: enum 0x7bB,KiB,MiB,GiB,TiB,sectors0x7d`. -/
inductive Unit' where
  | B
  | KiB
  | MiB
  | GiB
  | TiB
  | sectors
deriving DecidableEq, Repr

/-- Modelled from the spec: byte multiplier of each fixed unit
(binary multiples per the spec's KiB/MiB/GiB/TiB naming). -/
def Unit'.multiplier : Unit' → Nat
  | .B => 1
  | .KiB => 1024
  | .MiB => 1024 ^ 2
  | .GiB => 1024 ^ 3
  | .TiB => 1024 ^ 4
  | .sectors => 1

/-- Modelled from the spec: a sector size is itself a byte quantity
(constructed as `SectorSize(512, Unit.B)` at call sites in the source). -/
structure SectorSize where
  value : Nat
deriving DecidableEq, Repr

/-- Modelled from the spec: the default sector size used by
`SectorSize.default()` is 512 bytes. -/
def SectorSize.default' : SectorSize := ⟨512⟩

/-- Modelled from the spec: `Size` value type, spec §3:
`(value: integer, unit: enum, sector_size: Size)`. -/
structure Size where
  value : Nat
  unit : Unit'
  sector_size : SectorSize
deriving DecidableEq, Repr

/-- Modelled from the spec: total byte count denoted by a `Size`; a value in
`sectors` is meaningful only relative to the associated sector size. -/
def Size.toBytes (s : Size) : Nat :=
  match s.unit with
  | .sectors => s.value * s.sector_size.value
  | u => s.value * u.multiplier

/-- Modelled from the spec: unit conversion, spec §4.1: all arithmetic is
integer and truncating division is used for unit conversion.  The one
argument form keeps the size's own sector-size context, matching the
`total_size.convert(Unit.GiB)` call sites. -/
def Size.convert (s : Size) (target : Unit') : Size :=
  match target with
  | .sectors => ⟨s.toBytes / s.sector_size.value, .sectors, s.sector_size⟩
  | u => ⟨s.toBytes / u.multiplier, u, s.sector_size⟩

/-! ## Root-sizing policy (two in-tree copies) -/

namespace Archinstoo

/-- Embedding of `process_root_partition_size`
(archinstoo/lib/disk/conf.py lines 389-400): total size above 500 GiB
gives a 50 GiB root, below 320 GiB gives 32 GiB, otherwise a tenth of
the total (integer division), always expressed in GiB. -/
def process_root_partition_size (total_size : Size) (sector_size : SectorSize) : Size :=
  let total_device_size := total_size.convert Unit'.GiB
  if total_device_size.value > 500 then
    ⟨50, Unit'.GiB, sector_size⟩
  else if total_device_size.value < 320 then
    ⟨32, Unit'.GiB, sector_size⟩
  else
    ⟨total_device_size.value / 10, Unit'.GiB, sector_size⟩

end Archinstoo

namespace Archinstall

/-- Embedding of `process_root_partition_size`
(archinstall/lib/interactions/disk_conf.py lines 281-293), the sibling
subtree's copy of the root-sizing policy (if / elif / else chain). -/
def process_root_partition_size (total_size : Size) (sector_size : SectorSize) : Size :=
  let total_device_size := total_size.convert Unit'.GiB
  if total_device_size.value > 500 then
    ⟨50, Unit'.GiB, sector_size⟩
  else
    if total_device_size.value < 320 then
      ⟨32, Unit'.GiB, sector_size⟩
    else
      ⟨total_device_size.value / 10, Unit'.GiB, sector_size⟩

end Archinstall

/-- C5: the root-sizing policy returns 50 GiB when the total size converted
to GiB exceeds 500, 32 GiB when it is below 320, and otherwise the total
GiB count integer-divided by 10; in particular (sector size 512B) totals of
600 GiB, 200 GiB and 400 GiB yield roots of 50 GiB, 32 GiB and 40 GiB. -/
theorem process_root_partition_size_policy :
    (∀ (total_size : Size) (sector_size : SectorSize),
      ((total_size.convert Unit'.GiB).value > 500 →
        Archinstoo.process_root_partition_size total_size sector_size
          = ⟨50, Unit'.GiB, sector_size⟩) ∧
      ((total_size.convert Unit'.GiB).value < 320 →
        Archinstoo.process_root_partition_size total_size sector_size
          = ⟨32, Unit'.GiB, sector_size⟩) ∧
      (¬ (total_size.convert Unit'.GiB).value > 500 →
       ¬ (total_size.convert Unit'.GiB).value < 320 →
        Archinstoo.process_root_partition_size total_size sector_size
          = ⟨(total_size.convert Unit'.GiB).value / 10, Unit'.GiB, sector_size⟩)) ∧
    Archinstoo.process_root_partition_size ⟨600, Unit'.GiB, ⟨512⟩⟩ ⟨512⟩
      = ⟨50, Unit'.GiB, ⟨512⟩⟩ ∧
    Archinstoo.process_root_partition_size ⟨200, Unit'.GiB, ⟨512⟩⟩ ⟨512⟩
      = ⟨32, Unit'.GiB, ⟨512⟩⟩ ∧
    Archinstoo.process_root_partition_size ⟨400, Unit'.GiB, ⟨512⟩⟩ ⟨512⟩
      = ⟨40, Unit'.GiB, ⟨512⟩⟩ := by
  refine ⟨fun total_size sector_size => ⟨?_, ?_, ?_⟩, by decide, by decide, by decide⟩
  · intro h
    simp [Archinstoo.process_root_partition_size, h]
  · intro h
    have h' : ¬ (total_size.convert Unit'.GiB).value > 500 := by omega
    simp [Archinstoo.process_root_partition_size, h, h']
  · intro h1 h2
    simp [Archinstoo.process_root_partition_size, h1, h2]

/-- Closed witness for the root-sizing policy theorem, instantiating each
of its three hypothetical branches at a concrete device size. -/
theorem process_root_partition_size_policy_witness :
    Archinstoo.process_root_partition_size ⟨501, Unit'.GiB, ⟨512⟩⟩ ⟨4096⟩
      = ⟨50, Unit'.GiB, ⟨4096⟩⟩ ∧
    Archinstoo.process_root_partition_size ⟨319, Unit'.GiB, ⟨512⟩⟩ ⟨4096⟩
      = ⟨32, Unit'.GiB, ⟨4096⟩⟩ ∧
    Archinstoo.process_root_partition_size ⟨350, Unit'.GiB, ⟨512⟩⟩ ⟨4096⟩
      = ⟨35, Unit'.GiB, ⟨4096⟩⟩ :=
  ⟨(process_root_partition_size_policy.1 ⟨501, Unit'.GiB, ⟨512⟩⟩ ⟨4096⟩).1 (by decide),
   (process_root_partition_size_policy.1 ⟨319, Unit'.GiB, ⟨512⟩⟩ ⟨4096⟩).2.1 (by decide),
   (process_root_partition_size_policy.1 ⟨350, Unit'.GiB, ⟨512⟩⟩ ⟨4096⟩).2.2 (by decide) (by decide)⟩

/-- C10: the two in-tree copies of the root-sizing policy
(`archinstall/lib/interactions/disk_conf.py` and
`archinstoo/lib/disk/conf.py`) are extensionally equal: they return the
same `Size` (value and unit) on every input. -/
theorem process_root_partition_size_equiv :
    ∀ (total_size : Size) (sector_size : SectorSize),
      Archinstoo.process_root_partition_size total_size sector_size =
        Archinstall.process_root_partition_size total_size sector_size :=
  fun _ _ => rfl

/-! ## Disk layout model -/

/-- Filesystem types, as enumerated by the source's menus and validation
code (Fat12/Fat16/Fat32 from the validator, the rest from
`select_main_filesystem_format`). -/
inductive FilesystemType where
  | Fat12
  | Fat16
  | Fat32
  | Ext4
  | Btrfs
  | Xfs
  | F2fs
  | Bcachefs
  | Ntfs
deriving DecidableEq, Repr

/-- Partition flags used by the layout planner (spec §3 lists
BOOT, ESP, LINUX_HOME, BIOS_GRUB). -/
inductive PartitionFlag where
  | BOOT
  | ESP
  | LINUX_HOME
  | BIOS_GRUB
deriving DecidableEq, Repr

/-- Modification status of a plan object (spec §3). -/
inductive ModificationStatus where
  | Create
  | Exist
  | Delete
  | Modify
deriving DecidableEq, Repr

/-- Partition type; the planner only emits Primary (spec §3). -/
inductive PartitionType where
  | Primary
deriving DecidableEq, Repr

/-- Bootloader enumeration, from archinstoo/lib/models/bootloader.py. -/
inductive Bootloader where
  | NO_BOOTLOADER
  | Systemd
  | Grub
  | Efistub
  | Limine
  | Refind
deriving DecidableEq, Repr

/-- Modelled from the spec: encryption topology enumeration of
`DiskEncryption` (spec §3); `lib/models/device.py` is not in the provided
source tree, but all four variants are matched by name in installer.py. -/
inductive EncryptionType where
  | NoEncryption
  | Luks
  | LvmOnLuks
  | LuksOnLvm
deriving DecidableEq, Repr

/-- Modelled from the spec: password-based key derivation function choice
(spec §3: `pbkdf (Argon2id|PBKDF2)`). -/
inductive LuksPbkdf where
  | Argon2id
  | Pbkdf2
deriving DecidableEq, Repr

/-- Modelled from the spec: a BTRFS subvolume modification is a subvolume
name plus an optional mountpoint (spec §3 and the default subvolume table
in `get_default_btrfs_subvols`). -/
structure SubvolumeModification where
  name : String
  mountpoint : Option String
deriving DecidableEq, Repr

/-- Modelled from the spec: the root subvolume is the one mounted at `/`
(the default structure maps `@` to `/`). -/
def SubvolumeModification.is_root (sv : SubvolumeModification) : Bool :=
  sv.mountpoint = some "/"

/-- Modelled from the spec: partition plan object (spec §3), with the
fields read by the code under verification.  Field order: status, type,
start, length, mountpoint, fs_type, flags, mount_options, btrfs_subvols,
uuid, partuuid, dev_path. -/
structure PartitionModification where
  status : ModificationStatus
  type : PartitionType
  start : Size
  length : Size
  mountpoint : Option String
  fs_type : Option FilesystemType
  flags : List PartitionFlag
  mount_options : List String
  btrfs_subvols : List SubvolumeModification
  uuid : Option String
  partuuid : Option String
  dev_path : Option String
deriving DecidableEq, Repr

/-- Modelled from the spec: a partition carries the root role when it is
mounted at `/`, or (BTRFS container case) when one of its subvolumes is
mounted at `/` (spec §3 roles, §4.2 step 4). -/
def PartitionModification.is_root (p : PartitionModification) : Bool :=
  match p.mountpoint with
  | some mp => mp = "/"
  | none => p.btrfs_subvols.any (fun sv => sv.is_root)

/-- Modelled from the spec: the boot role is carried by the BOOT flag. -/
def PartitionModification.is_boot (p : PartitionModification) : Bool :=
  p.flags.contains PartitionFlag.BOOT

/-- Modelled from the spec: the ESP role is carried by the ESP flag. -/
def PartitionModification.is_efi (p : PartitionModification) : Bool :=
  p.flags.contains PartitionFlag.ESP

/-- Modelled from the spec: device plan object owning an ordered list of
partition modifications (spec §3); the block-device reference is kept as
an opaque device name. -/
structure DeviceModification where
  device : String
  wipe : Bool
  partitions : List PartitionModification
deriving DecidableEq, Repr

/-! ## Boot-partition emission (claim C8) -/

/-- Embedding of `_boot_partition` (archinstoo/lib/disk/conf.py lines
251-307).  UEFI gives a single 1 GiB FAT32 ESP mounted at `/efi` when
subvolumes are used and `/boot` otherwise; BIOS+GPT+Grub first emits a
1 MiB BIOS_GRUB partition and shifts the boot partition to 2 MiB;
the boot partition filesystem is forced to FAT32 for Limine and follows
the chosen filesystem otherwise. -/
def _boot_partition (sector_size : SectorSize) (using_gpt uefi : Bool)
    (bootloader : Option Bootloader) (filesystem_type : FilesystemType)
    (using_subvolumes : Bool) : List PartitionModification :=
  if uefi then
    [⟨ModificationStatus.Create, PartitionType.Primary,
      ⟨1, Unit'.MiB, sector_size⟩, ⟨1, Unit'.GiB, sector_size⟩,
      some (if using_subvolumes then "/efi" else "/boot"),
      some FilesystemType.Fat32, [PartitionFlag.ESP], [], [], none, none, none⟩]
  else
    let grub_bios_gpt := using_gpt = true ∧ bootloader = some Bootloader.Grub
    let bios_parts : List PartitionModification :=
      if grub_bios_gpt then
        [⟨ModificationStatus.Create, PartitionType.Primary,
          ⟨1, Unit'.MiB, sector_size⟩, ⟨1, Unit'.MiB, sector_size⟩,
          none, none, [PartitionFlag.BIOS_GRUB], [], [], none, none, none⟩]
      else []
    let start : Size :=
      if grub_bios_gpt then ⟨2, Unit'.MiB, sector_size⟩ else ⟨1, Unit'.MiB, sector_size⟩
    let boot_fs : FilesystemType :=
      if bootloader = some Bootloader.Limine then FilesystemType.Fat32 else filesystem_type
    bios_parts ++
      [⟨ModificationStatus.Create, PartitionType.Primary,
        start, ⟨1, Unit'.GiB, sector_size⟩,
        some "/boot", some boot_fs, [PartitionFlag.BOOT], [], [], none, none, none⟩]

/-- C8: boot-partition emission: on UEFI exactly one 1 GiB FAT32 partition
flagged ESP, mounted at `/efi` with BTRFS subvolumes and at `/boot`
otherwise; on BIOS with GPT and Grub an extra 1 MiB BIOS_GRUB partition
placed before the `/boot` partition; on BIOS with Limine no extra
partition and a FAT32 `/boot`; for other bootloaders `/boot` takes the
chosen filesystem type. -/
theorem boot_partition_cases (ss : SectorSize) (using_gpt uefi : Bool)
    (bl : Option Bootloader) (fs : FilesystemType) (subvols : Bool) :
    (uefi = true →
      _boot_partition ss using_gpt uefi bl fs subvols =
        [⟨ModificationStatus.Create, PartitionType.Primary,
          ⟨1, Unit'.MiB, ss⟩, ⟨1, Unit'.GiB, ss⟩,
          some (if subvols then "/efi" else "/boot"),
          some FilesystemType.Fat32, [PartitionFlag.ESP], [], [], none, none, none⟩]) ∧
    (uefi = false → using_gpt = true → bl = some Bootloader.Grub →
      ∃ boot, _boot_partition ss using_gpt uefi bl fs subvols =
          [⟨ModificationStatus.Create, PartitionType.Primary,
            ⟨1, Unit'.MiB, ss⟩, ⟨1, Unit'.MiB, ss⟩,
            none, none, [PartitionFlag.BIOS_GRUB], [], [], none, none, none⟩, boot] ∧
        boot.mountpoint = some "/boot" ∧ boot.start = ⟨2, Unit'.MiB, ss⟩ ∧
        boot.flags = [PartitionFlag.BOOT] ∧ boot.fs_type = some fs) ∧
    (uefi = false → bl = some Bootloader.Limine →
      _boot_partition ss using_gpt uefi bl fs subvols =
        [⟨ModificationStatus.Create, PartitionType.Primary,
          ⟨1, Unit'.MiB, ss⟩, ⟨1, Unit'.GiB, ss⟩,
          some "/boot", some FilesystemType.Fat32, [PartitionFlag.BOOT],
          [], [], none, none, none⟩]) ∧
    (uefi = false → bl ≠ some Bootloader.Limine →
      ∀ p ∈ _boot_partition ss using_gpt uefi bl fs subvols,
        p.mountpoint = some "/boot" → p.fs_type = some fs) := by
  refine ⟨?_, ?_, ?_, ?_⟩
  · intro h
    simp [_boot_partition, h]
  · intro h hgpt hbl
    subst h hgpt hbl
    exact ⟨⟨ModificationStatus.Create, PartitionType.Primary,
        ⟨2, Unit'.MiB, ss⟩, ⟨1, Unit'.GiB, ss⟩, some "/boot",
        some fs, [PartitionFlag.BOOT], [], [], none, none, none⟩,
      by simp [_boot_partition], rfl, rfl, rfl, rfl⟩
  · intro h hbl
    subst h hbl
    simp [_boot_partition]
  · intro h hbl p hp hmp
    subst h
    by_cases hg : using_gpt = true ∧ bl = some Bootloader.Grub
    · obtain ⟨hgpt, hblg⟩ := hg
      subst hgpt hblg
      simp [_boot_partition] at hp
      rcases hp with hp | hp
      · rw [hp] at hmp
        simp at hmp
      · rw [hp]
    · simp only [_boot_partition, Bool.false_eq_true, if_false, if_neg hg,
        List.nil_append, List.mem_singleton] at hp
      rw [hp]
      simp [hbl]

/-- Closed witness for the boot-partition theorem, instantiating its
implications at concrete inputs (512B sectors, ext4 root choice). -/
theorem boot_partition_cases_witness :
    _boot_partition ⟨512⟩ true true none FilesystemType.Ext4 false =
      [⟨ModificationStatus.Create, PartitionType.Primary,
        ⟨1, Unit'.MiB, ⟨512⟩⟩, ⟨1, Unit'.GiB, ⟨512⟩⟩,
        some "/boot", some FilesystemType.Fat32, [PartitionFlag.ESP],
        [], [], none, none, none⟩] ∧
    (_boot_partition ⟨512⟩ true false (some Bootloader.Grub) FilesystemType.Ext4 false).length = 2 ∧
    _boot_partition ⟨512⟩ false false (some Bootloader.Limine) FilesystemType.Ext4 false =
      [⟨ModificationStatus.Create, PartitionType.Primary,
        ⟨1, Unit'.MiB, ⟨512⟩⟩, ⟨1, Unit'.GiB, ⟨512⟩⟩,
        some "/boot", some FilesystemType.Fat32, [PartitionFlag.BOOT],
        [], [], none, none, none⟩] ∧
    (⟨ModificationStatus.Create, PartitionType.Primary,
      ⟨1, Unit'.MiB, ⟨512⟩⟩, ⟨1, Unit'.GiB, ⟨512⟩⟩,
      some "/boot", some FilesystemType.Ext4, [PartitionFlag.BOOT],
      [], [], none, none, none⟩ : PartitionModification).fs_type = some FilesystemType.Ext4 := by
  refine ⟨(boot_partition_cases ⟨512⟩ true true none FilesystemType.Ext4 false).1 rfl, ?_,
    (boot_partition_cases ⟨512⟩ false false (some Bootloader.Limine)
      FilesystemType.Ext4 false).2.2.1 rfl rfl, ?_⟩
  · obtain ⟨boot, heq, -, -, -, -⟩ :=
      (boot_partition_cases ⟨512⟩ true false (some Bootloader.Grub)
        FilesystemType.Ext4 false).2.1 rfl rfl rfl
    rw [heq]
    simp
  · exact (boot_partition_cases ⟨512⟩ false false (some Bootloader.Grub)
      FilesystemType.Ext4 false).2.2.2 rfl (by decide) _ (by decide) rfl

/-! ## Mount ordering (claim C2) -/

/-- Sort key used by `_mount_partition_layout` (installer.py line 301):
the partition's mountpoint, or `/` when it has none (BTRFS containers). -/
def mount_sort_key (p : PartitionModification) : String :=
  p.mountpoint.getD "/"

/-- Ordering under which partitions of one device are mounted: ascending
mountpoint, missing mountpoints counting as `/`.  Python's `sorted` uses
the `Path` order, modelled by `path_le`. -/
def mountpointLe (a b : PartitionModification) : Prop :=
  path_le (mount_sort_key a) (mount_sort_key b) = true

instance : DecidableRel mountpointLe :=
  fun _ _ => inferInstanceAs (Decidable (_ = true))

instance : IsTotal PartitionModification mountpointLe :=
  ⟨fun _ _ => charListLe_total _ _⟩

instance : IsTrans PartitionModification mountpointLe :=
  ⟨fun _ _ _ hab hbc => charListLe_trans _ _ _ hab hbc⟩

/-- Per-device partition sort of `_mount_partition_layout` (installer.py
line 301).  Python's `sorted` is a stable sort, and `List.insertionSort`
is the stable sort for the same total preorder, so the two agree. -/
def sort_part_mods (ps : List PartitionModification) : List PartitionModification :=
  List.insertionSort mountpointLe ps

/-- Mounted partitions of one device modification in their mount order:
partitions that are LVM physical volumes are excluded, the rest are
sorted by mountpoint (installer.py lines 296-301). -/
def device_mount_order (pvs : List PartitionModification)
    (mod : DeviceModification) : List PartitionModification :=
  sort_part_mods (mod.partitions.filter (fun p => !(pvs.contains p)))

/-- Device reordering of `_mount_partition_layout` (installer.py lines
286-293): the first device modification that contains a root partition is
moved to the front of the list. -/
def sorted_device_mods (mods : List DeviceModification) : List DeviceModification :=
  match mods.find? (fun mod => mod.partitions.any (fun p => p.is_root)) with
  | some m => m :: mods.erase m
  | none => mods

/-- Embedding of `_mount_partition_layout` (installer.py lines 278-307):
the sequence in which the non-PV partitions of all devices are mounted
(each one via LUKS or plainly, which does not affect the order). -/
def _mount_partition_layout (mods : List DeviceModification)
    (pvs : List PartitionModification) : List PartitionModification :=
  (sorted_device_mods mods).flatMap (device_mount_order pvs)

theorem find?_eq_of_filter_singleton {α : Type} (p : α → Bool) (l : List α)
    (d : α) (h : l.filter p = [d]) : l.find? p = some d := by
  induction l with
  | nil => simp at h
  | cons x t ih =>
    by_cases hp : p x = true
    · rw [List.filter_cons_of_pos hp] at h
      obtain ⟨h1, -⟩ := List.cons_eq_cons.mp h
      rw [List.find?_cons_of_pos _ hp, h1]
    · rw [List.filter_cons_of_neg (by simpa using hp)] at h
      rw [List.find?_cons_of_neg _ (by simpa using hp)]
      exact ih h

theorem filter_erase_nil {α : Type} [DecidableEq α] (p : α → Bool) (l : List α)
    (d : α) (h : l.filter p = [d]) : (l.erase d).filter p = [] := by
  have hd : p d = true := by
    have : d ∈ l.filter p := by rw [h]; exact List.mem_singleton_self d
    exact (List.mem_filter.mp this).2
  induction l with
  | nil => simp at h
  | cons x t ih =>
    by_cases hp : p x = true
    · rw [List.filter_cons_of_pos hp] at h
      obtain ⟨h1, h2⟩ := List.cons_eq_cons.mp h
      subst h1
      rw [List.erase_cons_head]
      exact h2
    · rw [List.filter_cons_of_neg (by simpa using hp)] at h
      have hxd : x ≠ d := by
        intro he
        rw [he] at hp
        exact hp hd
      rw [List.erase_cons_tail (by simpa using hxd)]
      rw [List.filter_cons_of_neg (by simpa using hp)]
      exact ih h

theorem mem_partitions_of_mem_device_mount_order
    {y : PartitionModification} {pvs : List PartitionModification}
    {m : DeviceModification} (h : y ∈ device_mount_order pvs m) :
    y ∈ m.partitions := by
  have h1 : y ∈ m.partitions.filter (fun p => !(pvs.contains p)) :=
    (List.perm_insertionSort mountpointLe _).mem_iff.mp h
  exact (List.mem_filter.mp h1).1

theorem is_root_of_mountpoint_root {p : PartitionModification}
    (h : p.mountpoint = some "/") : p.is_root = true := by
  simp [PartitionModification.is_root, h]

/-- C2: in `_mount_partition_layout`, when exactly one device modification
contains the root partition, that device's partitions come first in the
mount sequence; within every device the non-PV partitions are mounted in
ascending mountpoint order (a missing mountpoint counting as `/`); and
consequently a partition mounted at `/var/log` is never mounted before
the partition mounted at `/`. -/
theorem mount_partition_layout_order (mods : List DeviceModification)
    (pvs : List PartitionModification) (d : DeviceModification)
    (h : mods.filter (fun mod => mod.partitions.any (fun p => p.is_root)) = [d]) :
    _mount_partition_layout mods pvs =
      device_mount_order pvs d ++
        (mods.erase d).flatMap (device_mount_order pvs) ∧
    (∀ m ∈ mods, List.Sorted mountpointLe (device_mount_order pvs m)) ∧
    List.Pairwise
      (fun a b => a.mountpoint = some "/var/log" → ¬ b.mountpoint = some "/")
      (_mount_partition_layout mods pvs) := by
  have hfind : mods.find? (fun mod => mod.partitions.any (fun p => p.is_root)) = some d :=
    find?_eq_of_filter_singleton _ _ _ h
  have hflatten : _mount_partition_layout mods pvs =
      ((d :: mods.erase d).map (device_mount_order pvs)).flatten := by
    unfold _mount_partition_layout sorted_device_mods
    rw [hfind]
    simp [List.flatMap]
  refine ⟨?_, ?_, ?_⟩
  · unfold _mount_partition_layout sorted_device_mods
    rw [hfind, List.flatMap_cons]
  · intro m _
    exact List.sorted_insertionSort mountpointLe _
  · have hnone : ∀ m ∈ mods.erase d, ∀ y ∈ device_mount_order pvs m,
        ¬ y.mountpoint = some "/" := by
      intro m hm y hy hmp
      have hroot : m.partitions.any (fun p => p.is_root) = true :=
        List.any_eq_true.mpr ⟨y, mem_partitions_of_mem_device_mount_order hy,
          is_root_of_mountpoint_root hmp⟩
      have hmem : m ∈ (mods.erase d).filter
          (fun mod => mod.partitions.any (fun p => p.is_root)) :=
        List.mem_filter.mpr ⟨hm, hroot⟩
      rw [filter_erase_nil _ _ _ h] at hmem
      exact absurd hmem (List.not_mem_nil m)
    have hblocks : ∀ m : DeviceModification,
        List.Pairwise
          (fun a b => a.mountpoint = some "/var/log" → ¬ b.mountpoint = some "/")
          (device_mount_order pvs m) := by
      intro m
      refine (List.sorted_insertionSort mountpointLe
        (m.partitions.filter (fun p => !(pvs.contains p)))).imp ?_
      intro a b hab ha hb
      rw [mountpointLe] at hab
      rw [mount_sort_key, mount_sort_key, ha, hb] at hab
      exact absurd hab (by decide)
    rw [hflatten]
    apply List.pairwise_flatten.mpr
    refine ⟨?_, ?_⟩
    · intro l hl
      obtain ⟨m, -, rfl⟩ := List.mem_map.mp hl
      exact hblocks m
    · apply List.pairwise_map.mpr
      refine List.Pairwise.cons ?_ ?_
      · intro m hm x _ y hy hx hy'
        exact hnone m hm y hy hy'
      · apply List.pairwise_of_forall_mem_list
        intro m1 _ m2 hm2 x _ y hy hx hy'
        exact hnone m2 hm2 y hy hy'

/-- Concrete partitions and devices used by the mount-ordering witness:
one device holding `/` and `/var/log`, another holding `/home`. -/
def samplePart (mp : String) : PartitionModification :=
  ⟨ModificationStatus.Create, PartitionType.Primary,
   ⟨1, Unit'.MiB, ⟨512⟩⟩, ⟨1, Unit'.GiB, ⟨512⟩⟩,
   some mp, some FilesystemType.Ext4, [], [], [], none, none, none⟩

/-- Device containing the root partition (listed after `/var/log` to make
the within-device sort observable). -/
def sampleRootDevice : DeviceModification :=
  ⟨"/dev/sda", true, [samplePart "/var/log", samplePart "/"]⟩

/-- Second device, carrying only `/home`. -/
def sampleHomeDevice : DeviceModification :=
  ⟨"/dev/sdb", true, [samplePart "/home"]⟩

/-- Closed witness for the mount-ordering theorem: with the home device
listed first, the root device is still mounted first, and the mount
sequence is `/`, `/var/log`, `/home`. -/
theorem mount_partition_layout_order_witness :
    _mount_partition_layout [sampleHomeDevice, sampleRootDevice] [] =
      device_mount_order [] sampleRootDevice ++
        ([sampleHomeDevice, sampleRootDevice].erase sampleRootDevice).flatMap
          (device_mount_order []) ∧
    _mount_partition_layout [sampleHomeDevice, sampleRootDevice] [] =
      [samplePart "/", samplePart "/var/log", samplePart "/home"] :=
  ⟨(mount_partition_layout_order [sampleHomeDevice, sampleRootDevice] []
      sampleRootDevice (by decide)).1,
   by decide⟩

/-! ## Encryption planner (claim C3) -/

/-- Modelled from the spec: LVM logical volume plan object (spec §3), with
the fields read by the code under verification.  Field order: name,
vg_name, fs_type, mountpoint, btrfs_subvols, dev_path. -/
structure LvmVolume where
  name : String
  vg_name : Option String
  fs_type : Option FilesystemType
  mountpoint : Option String
  btrfs_subvols : List SubvolumeModification
  dev_path : Option String
deriving DecidableEq, Repr

/-- Modelled from the spec: an LVM volume carries the root role when it is
mounted at `/` or one of its BTRFS subvolumes is (spec §3). -/
def LvmVolume.is_root (v : LvmVolume) : Bool :=
  match v.mountpoint with
  | some mp => mp = "/"
  | none => v.btrfs_subvols.any (fun sv => sv.is_root)

/-- Modelled from the spec: the `DEFAULT_ITER_TIME` constant lives in the
device model, which is not under the provided source tree; its concrete
value does not matter for any claim. -/
def DEFAULT_ITER_TIME : Nat := 10000

/-- Modelled from the spec: the `DiskEncryption` plan object (spec §3).
Field order: encryption_type, encryption_password, partitions,
lvm_volumes, pbkdf, iter_time, auto_unlock_root. -/
structure DiskEncryption where
  encryption_type : EncryptionType
  encryption_password : String
  partitions : List PartitionModification
  lvm_volumes : List LvmVolume
  pbkdf : LuksPbkdf
  iter_time : Nat
  auto_unlock_root : Bool
deriving DecidableEq, Repr

/-- Menu selections held by `DiskEncryptionMenu` at the point `run`
computes its result (encryption_menu.py lines 158-164): the value of each
menu item, each possibly unset.  A password is modelled by its plaintext;
a `Password` object is truthy exactly when it is present (the class
defines no `__bool__`). -/
structure DiskEncryptionMenuState where
  encryption_type : Option EncryptionType
  encryption_password : Option String
  pbkdf : Option LuksPbkdf
  iter_time : Option Nat
  partitions : Option (List PartitionModification)
  lvm_volumes : Option (List LvmVolume)
  auto_unlock_root : Option Bool
deriving DecidableEq, Repr

/-- Embedding of the result computation of `DiskEncryptionMenu.run`
(encryption_menu.py lines 154-186): read the selected values, clear the
LVM volumes when the type is Luks/LvmOnLuks and the partition selection
is non-empty, clear the partitions when the type is LuksOnLvm, and build
the `DiskEncryption` when a type, a password and a non-empty selection
are present (`iter_time or DEFAULT_ITER_TIME` treats a zero iteration
time as unset, as Python `or` does). -/
def DiskEncryptionMenu_run (s : DiskEncryptionMenuState) : Option DiskEncryption :=
  match s.encryption_type, s.partitions, s.lvm_volumes with
  | some enc_type, some enc_partitions, some enc_lvm_vols =>
    let auto_unlock_root : Bool := (s.auto_unlock_root).getD false
    let enc_lvm_vols :=
      if (enc_type = EncryptionType.Luks ∨ enc_type = EncryptionType.LvmOnLuks) ∧
          enc_partitions ≠ [] then [] else enc_lvm_vols
    let enc_partitions :=
      if enc_type = EncryptionType.LuksOnLvm then [] else enc_partitions
    if enc_type ≠ EncryptionType.NoEncryption ∧ (s.encryption_password).isSome ∧
        (enc_partitions ≠ [] ∨ enc_lvm_vols ≠ []) then
      some ⟨enc_type, (s.encryption_password).getD "", enc_partitions, enc_lvm_vols,
        (s.pbkdf).getD LuksPbkdf.Argon2id,
        (match s.iter_time with
         | some n => if n = 0 then DEFAULT_ITER_TIME else n
         | none => DEFAULT_ITER_TIME),
        auto_unlock_root⟩
    else
      none
  | _, _, _ => none

/-- Sample LVM volume used in the claim C3 theorems. -/
def sampleLvmVolume : LvmVolume :=
  ⟨"root", some "vg0", some FilesystemType.Ext4, some "/", [], none⟩

/-- C3 counterexample: with encryption type LvmOnLuks, an empty partition
selection and a non-empty LVM-volume selection held beforehand, `run`
returns a configuration whose `lvm_volumes` set is NOT empty — the
normalization clears `lvm_volumes` only when the partition selection is
non-empty, so the claim as stated fails. -/
theorem diskencryption_menu_run_counterexample :
    DiskEncryptionMenu_run
        ⟨some EncryptionType.LvmOnLuks, some "pw", none, none,
         some [], some [sampleLvmVolume], none⟩
      = some ⟨EncryptionType.LvmOnLuks, "pw", [], [sampleLvmVolume],
              LuksPbkdf.Argon2id, DEFAULT_ITER_TIME, false⟩ ∧
    [sampleLvmVolume] ≠ ([] : List LvmVolume) := by
  constructor
  · decide
  · decide

/-- C3 (amended): every configuration produced by `run` has an empty
`partitions` set when its type is LuksOnLvm, and an empty `lvm_volumes`
set when its type is Luks or LvmOnLuks AND the resulting partitions set
is non-empty; the code does not clear `lvm_volumes` when the partition
selection is empty. -/
theorem diskencryption_menu_run_normalization (s : DiskEncryptionMenuState)
    (de : DiskEncryption) (h : DiskEncryptionMenu_run s = some de) :
    (de.encryption_type = EncryptionType.LuksOnLvm → de.partitions = []) ∧
    ((de.encryption_type = EncryptionType.Luks ∨
      de.encryption_type = EncryptionType.LvmOnLuks) →
      de.partitions ≠ [] → de.lvm_volumes = []) := by
  obtain ⟨et, pw, pb, it, parts, vols, aur⟩ := s
  cases et with
  | none => simp [DiskEncryptionMenu_run] at h
  | some enc_type =>
    cases parts with
    | none => simp [DiskEncryptionMenu_run] at h
    | some enc_partitions =>
      cases vols with
      | none => simp [DiskEncryptionMenu_run] at h
      | some enc_lvm_vols =>
        simp only [DiskEncryptionMenu_run] at h
        cases enc_type <;> by_cases hne : enc_partitions = [] <;>
          simp [hne] at h <;>
          obtain ⟨-, hX⟩ := h <;> subst hX <;> simp [hne]

/-- Closed witness for the amended C3 theorem: a Luks selection with a
non-empty partition set yields an empty `lvm_volumes` set. -/
theorem diskencryption_menu_run_normalization_witness :
    (⟨EncryptionType.Luks, "pw", [samplePart "/"], [],
      LuksPbkdf.Argon2id, DEFAULT_ITER_TIME, false⟩ : DiskEncryption).lvm_volumes = [] :=
  (diskencryption_menu_run_normalization
      ⟨some EncryptionType.Luks, some "pw", none, none,
       some [samplePart "/"], some [sampleLvmVolume], none⟩
      ⟨EncryptionType.Luks, "pw", [samplePart "/"], [],
       LuksPbkdf.Argon2id, DEFAULT_ITER_TIME, false⟩
      (by decide)).2 (Or.inl rfl) (by decide)

/-! ## Pre-install bootloader validation (claim C9) -/

/-- Bootloader configuration (archinstoo/lib/models/bootloader.py):
bootloader choice plus UKI and removable flags. -/
structure BootloaderConfiguration where
  bootloader : Bootloader
  uki : Bool
  removable : Bool
deriving DecidableEq, Repr

/-- Modelled from the spec: `DeviceModification.get_root_partition` (the
method body lives in the device model, which is not under src/): the
first partition carrying the root role; spec §3 says at most one
partition per device carries each role. -/
def DeviceModification.get_root_partition (m : DeviceModification) :
    Option PartitionModification :=
  m.partitions.find? (fun p => p.is_root)

/-- Modelled from the spec: first partition carrying the boot role. -/
def DeviceModification.get_boot_partition (m : DeviceModification) :
    Option PartitionModification :=
  m.partitions.find? (fun p => p.is_boot)

/-- Modelled from the spec: first partition carrying the ESP role. -/
def DeviceModification.get_efi_partition (m : DeviceModification) :
    Option PartitionModification :=
  m.partitions.find? (fun p => p.is_efi)

/-- Disk layout configuration as read by the validator: the list of
device modifications. -/
structure DiskLayoutConfiguration where
  device_modifications : List DeviceModification
deriving DecidableEq, Repr

/-- First hit of a per-device partition lookup across the device list,
mirroring the `for layout in ...: if x := layout.get_X(): break` loops of
`_validate_bootloader` (global_menu.py lines 593-603). -/
def find_first_partition (mods : List DeviceModification)
    (get : DeviceModification → Option PartitionModification) :
    Option PartitionModification :=
  match mods with
  | [] => none
  | m :: t =>
    match get m with
    | some p => some p
    | none => find_first_partition t get

/-- Membership test `fs_type in [Fat12, Fat16, Fat32]` used by the
validator; a missing (`None`) filesystem type is not in the list. -/
def is_fat_fs : Option FilesystemType → Bool
  | some FilesystemType.Fat12 => true
  | some FilesystemType.Fat16 => true
  | some FilesystemType.Fat32 => true
  | _ => false

/-- Embedding of `GlobalMenu._validate_bootloader` (archinstall subtree,
global_menu.py lines 570-628): returns an error message, or `none` when
the bootloader selection is valid for the disk layout. -/
def _validate_bootloader (has_uefi : Bool)
    (bootloader_config : Option BootloaderConfiguration)
    (disk_config : Option DiskLayoutConfiguration) : Option String :=
  match bootloader_config with
  | none => none
  | some cfg =>
    if cfg.bootloader = Bootloader.NO_BOOTLOADER then none
    else
      match disk_config with
      | none => some "No disk layout selected"
      | some dc =>
        let root_partition :=
          find_first_partition dc.device_modifications
            (fun m => m.get_root_partition)
        let boot_partition :=
          find_first_partition dc.device_modifications
            (fun m => m.get_boot_partition)
        let efi_partition :=
          if has_uefi then
            find_first_partition dc.device_modifications
              (fun m => m.get_efi_partition)
          else none
        match root_partition with
        | none => some "Root partition not found"
        | some _ =>
          match boot_partition with
          | none => some "Boot partition not found"
          | some bp =>
            let esp_err : Option String :=
              if has_uefi then
                match efi_partition with
                | none => some "EFI system partition (ESP) not found"
                | some ep =>
                  if is_fat_fs ep.fs_type then none
                  else some "ESP must be formatted as a FAT filesystem"
              else none
            match esp_err with
            | some e => some e
            | none =>
              if cfg.bootloader = Bootloader.Limine then
                if is_fat_fs bp.fs_type then none
                else some "Limine does not support booting with a non-FAT boot partition"
              else if cfg.bootloader = Bootloader.Refind then
                if has_uefi then none
                else some "rEFInd can only be used on UEFI systems"
              else none

/-- C9: with a selected bootloader and a layout providing root, boot and
(on UEFI) ESP partitions, the validator returns an error whenever the
UEFI ESP is not FAT-formatted, and whenever the bootloader is Limine and
the boot partition is not FAT-formatted; and it returns no error for a
FAT ESP (on UEFI) with a bootloader other than Limine and Refind. -/
theorem validate_bootloader_rules (has_uefi : Bool)
    (cfg : BootloaderConfiguration) (dc : DiskLayoutConfiguration)
    (rp bp ep : PartitionModification)
    (hbl : cfg.bootloader ≠ Bootloader.NO_BOOTLOADER)
    (hroot : find_first_partition dc.device_modifications
      (fun m => m.get_root_partition) = some rp)
    (hboot : find_first_partition dc.device_modifications
      (fun m => m.get_boot_partition) = some bp)
    (hefi : has_uefi = true → find_first_partition dc.device_modifications
      (fun m => m.get_efi_partition) = some ep) :
    (has_uefi = true → is_fat_fs ep.fs_type = false →
      (_validate_bootloader has_uefi (some cfg) (some dc)).isSome = true) ∧
    (cfg.bootloader = Bootloader.Limine → is_fat_fs bp.fs_type = false →
      (_validate_bootloader has_uefi (some cfg) (some dc)).isSome = true) ∧
    (cfg.bootloader ≠ Bootloader.Limine → cfg.bootloader ≠ Bootloader.Refind →
      (has_uefi = true → is_fat_fs ep.fs_type = true) →
      _validate_bootloader has_uefi (some cfg) (some dc) = none) := by
  refine ⟨?_, ?_, ?_⟩
  · intro hu hfat
    subst hu
    simp only [_validate_bootloader, if_neg hbl, hroot, hboot, hefi rfl,
      if_pos rfl, hfat, Bool.false_eq_true, if_false]
    simp [hfat]
  · intro hlim hfat
    cases has_uefi with
    | false =>
      simp only [_validate_bootloader, if_neg hbl, hroot, hboot,
        Bool.false_eq_true, if_false, hlim, if_pos rfl, hfat]
      simp
    | true =>
      simp only [_validate_bootloader, if_neg hbl, hroot, hboot, hefi rfl,
        if_pos rfl, hlim, hfat, Bool.false_eq_true, if_false]
      cases hff : is_fat_fs ep.fs_type <;> simp [hff, hfat]
  · intro hnl hnr hfat
    cases has_uefi with
    | false =>
      simp only [_validate_bootloader, if_neg hbl, hroot, hboot,
        Bool.false_eq_true, if_false, if_neg hnl, if_neg hnr]
    | true =>
      simp only [_validate_bootloader, if_neg hbl, hroot, hboot, hefi rfl,
        if_pos rfl, hfat rfl, if_neg hnl, if_neg hnr]
      simp [hfat rfl]

/-- Sample boot partition for the validator witness. -/
def sampleBootPart (fs : FilesystemType) : PartitionModification :=
  ⟨ModificationStatus.Create, PartitionType.Primary,
   ⟨1, Unit'.MiB, ⟨512⟩⟩, ⟨1, Unit'.GiB, ⟨512⟩⟩,
   some "/boot", some fs, [PartitionFlag.BOOT], [], [], none, none, none⟩

/-- Sample ESP for the validator witness. -/
def sampleEspPart (fs : FilesystemType) : PartitionModification :=
  ⟨ModificationStatus.Create, PartitionType.Primary,
   ⟨1, Unit'.MiB, ⟨512⟩⟩, ⟨1, Unit'.GiB, ⟨512⟩⟩,
   some "/efi", some fs, [PartitionFlag.ESP], [], [], none, none, none⟩

/-- Sample single-device layout (ESP, boot, root) for the validator
witness, parameterized by the boot and ESP filesystem types. -/
def sampleLayout (bootFs espFs : FilesystemType) : DiskLayoutConfiguration :=
  ⟨[⟨"/dev/sda", true,
     [sampleEspPart espFs, sampleBootPart bootFs, samplePart "/"]⟩]⟩

/-- Closed witness for the C9 validator theorem: a non-FAT ESP on UEFI is
rejected, Limine with a non-FAT boot partition is rejected on BIOS, and
Grub with a FAT ESP passes. -/
theorem validate_bootloader_rules_witness :
    (_validate_bootloader true (some ⟨Bootloader.Grub, false, true⟩)
      (some (sampleLayout FilesystemType.Ext4 FilesystemType.Ext4))).isSome = true ∧
    (_validate_bootloader false (some ⟨Bootloader.Limine, false, true⟩)
      (some (sampleLayout FilesystemType.Ext4 FilesystemType.Fat32))).isSome = true ∧
    _validate_bootloader true (some ⟨Bootloader.Grub, false, true⟩)
      (some (sampleLayout FilesystemType.Fat32 FilesystemType.Fat32)) = none :=
  ⟨(validate_bootloader_rules true ⟨Bootloader.Grub, false, true⟩
      (sampleLayout FilesystemType.Ext4 FilesystemType.Ext4)
      (samplePart "/") (sampleBootPart FilesystemType.Ext4)
      (sampleEspPart FilesystemType.Ext4)
      (by decide) (by decide) (by decide) (fun _ => by decide)).1 rfl (by decide),
   (validate_bootloader_rules false ⟨Bootloader.Limine, false, true⟩
      (sampleLayout FilesystemType.Ext4 FilesystemType.Fat32)
      (samplePart "/") (sampleBootPart FilesystemType.Ext4)
      (sampleEspPart FilesystemType.Fat32)
      (by decide) (by decide) (by decide) (fun _ => by decide)).2.1 rfl (by decide),
   (validate_bootloader_rules true ⟨Bootloader.Grub, false, true⟩
      (sampleLayout FilesystemType.Fat32 FilesystemType.Fat32)
      (samplePart "/") (sampleBootPart FilesystemType.Fat32)
      (sampleEspPart FilesystemType.Fat32)
      (by decide) (by decide) (by decide) (fun _ => by decide)).2.2
      (by decide) (by decide) (fun _ => by decide)⟩

/-! ## Kernel command-line synthesis (claim C1) -/

/-- Python f-string rendering of an optional value: `None` prints as the
text `None`. -/
def optStr : Option String → String
  | some s => s
  | none => "None"

/-- Embedding of `Installer._get_kernel_params_partition` (installer.py
lines 1083-1105): an encrypted root partition (a member of the encrypted
set) is identified by LUKS UUID via `rd.luks.name` and mapped to
`/dev/mapper/root`; an unencrypted one by PARTUUID (or by UUID when
PARTUUID identification is disabled). -/
def _get_kernel_params_partition (de : DiskEncryption)
    (root_partition : PartitionModification) (id_root partuuid : Bool) :
    List String :=
  if de.partitions.contains root_partition then
    ["rd.luks.name=" ++ optStr root_partition.uuid ++ "=root"] ++
      (if id_root then ["root=/dev/mapper/root"] else [])
  else if id_root then
    if partuuid then ["root=PARTUUID=" ++ optStr root_partition.partuuid]
    else ["root=UUID=" ++ optStr root_partition.uuid]
  else []

/-- Modelled from the spec: the device-mapper node of an LVM logical
volume is `/dev/mapper/<vg>-<name>`; the device handler that assigns
`LvmVolume.dev_path` is not under src/, and spec §4.6 states that an
LvmOnLuks root is identified by a `root=/dev/mapper/...` path. -/
def lvm_mapper_path (vg name : String) : String :=
  "/dev/mapper/" ++ vg ++ "-" ++ name

/-- Embedding of `Installer._get_kernel_params_lvm` (installer.py lines
1107-1136).  The runtime lookups of the device handler (not under src/)
enter as parameters: `pv_seg_name` is the physical-volume device reported
by `lvm_pvseg_info`, `pv_luks_uuid` and `mapper_luks_uuid` are the LUKS
superblock UUIDs reported by `_get_luks_uuid_from_mapper_dev` for that PV
and for the volume's own mapper device; `none` models a failed lookup. -/
def _get_kernel_params_lvm (de : DiskEncryption) (lvm : LvmVolume)
    (pv_seg_name : Option String) (pv_luks_uuid : Option String)
    (mapper_luks_uuid : Option String) : Except String (List String) :=
  match de.encryption_type with
  | EncryptionType.LvmOnLuks =>
    match lvm.vg_name with
    | none => Except.error ("Unable to determine VG name for " ++ lvm.name)
    | some vg_name =>
      match pv_seg_name with
      | none => Except.error
          ("Unable to determine PV segment info for " ++ vg_name ++ "/" ++ lvm.name)
      | some _ =>
        match pv_luks_uuid with
        | none => Except.error "Unable to determine UUID of luks superblock"
        | some uuid =>
          match lvm.dev_path with
          | none => Except.error "dev_path is not set"
          | some dp => Except.ok ["rd.luks.name=" ++ uuid ++ "=cryptlvm root=" ++ dp]
  | EncryptionType.LuksOnLvm =>
    match mapper_luks_uuid with
    | none => Except.error "Unable to determine UUID of luks superblock"
    | some uuid => Except.ok ["rd.luks.name=" ++ uuid ++ "=root root=/dev/mapper/root"]
  | EncryptionType.NoEncryption =>
    match lvm.dev_path with
    | none => Except.error "dev_path is not set"
    | some dp => Except.ok ["root=" ++ dp]
  | EncryptionType.Luks => Except.ok []

/-- C1: kernel-command-line synthesis identifies root by topology: a root
partition in the encrypted set (Luks) yields `rd.luks.name=<uuid>=root`
plus `root=/dev/mapper/root`; an LvmOnLuks root volume yields
`rd.luks.name=<uuid>=cryptlvm` together with a `root=/dev/mapper/...`
path for the root logical volume; an unencrypted root partition with
PARTUUID identification enabled yields `root=PARTUUID=<partuuid>`. -/
theorem kernel_params_root_identification (de : DiskEncryption)
    (root : PartitionModification) (lvm : LvmVolume)
    (u pu vg pvn : String) :
    (de.encryption_type = EncryptionType.Luks → root ∈ de.partitions →
      root.uuid = some u →
      _get_kernel_params_partition de root true true =
        ["rd.luks.name=" ++ u ++ "=root", "root=/dev/mapper/root"]) ∧
    (de.encryption_type = EncryptionType.LvmOnLuks → lvm.vg_name = some vg →
      lvm.dev_path = some (lvm_mapper_path vg lvm.name) →
      _get_kernel_params_lvm de lvm (some pvn) (some u) none =
        Except.ok ["rd.luks.name=" ++ u ++ "=cryptlvm root=" ++
          lvm_mapper_path vg lvm.name] ∧
      ∃ rest, lvm_mapper_path vg lvm.name = "/dev/mapper/" ++ rest) ∧
    (¬ root ∈ de.partitions → root.partuuid = some pu →
      _get_kernel_params_partition de root true true =
        ["root=PARTUUID=" ++ pu]) := by
  refine ⟨?_, ?_, ?_⟩
  · intro _ hmem hu
    have hc : de.partitions.contains root = true := List.elem_eq_true_of_mem hmem
    simp [_get_kernel_params_partition, hc, hu, hmem, optStr]
  · intro hty hvg hdp
    refine ⟨?_, ⟨vg ++ "-" ++ lvm.name, ?_⟩⟩
    · simp [_get_kernel_params_lvm, hty, hvg, hdp]
    · simp [lvm_mapper_path, String.append_assoc]
  · intro hmem hpu
    have hc : de.partitions.contains root = false := by simp [hmem]
    simp [_get_kernel_params_partition, hc, hpu, hmem, optStr]

/-- Concrete encrypted-root configuration for the C1 witness. -/
def sampleEncRoot : PartitionModification :=
  ⟨ModificationStatus.Create, PartitionType.Primary,
   ⟨1, Unit'.MiB, ⟨512⟩⟩, ⟨1, Unit'.GiB, ⟨512⟩⟩,
   some "/", some FilesystemType.Ext4, [], [], [],
   some "11aa-luks", some "22bb-part", some "/dev/sda2"⟩

/-- Concrete root LVM volume for the C1 witness. -/
def sampleRootVol : LvmVolume :=
  ⟨"root", some "vg0", some FilesystemType.Ext4, some "/", [],
   some (lvm_mapper_path "vg0" "root")⟩

/-- Closed witness for the C1 kernel-parameter theorem, covering all
three topologies at concrete inputs. -/
theorem kernel_params_root_identification_witness :
    _get_kernel_params_partition
        ⟨EncryptionType.Luks, "pw", [sampleEncRoot], [],
         LuksPbkdf.Argon2id, DEFAULT_ITER_TIME, false⟩
        sampleEncRoot true true =
      ["rd.luks.name=11aa-luks=root", "root=/dev/mapper/root"] ∧
    _get_kernel_params_lvm
        ⟨EncryptionType.LvmOnLuks, "pw", [], [sampleRootVol],
         LuksPbkdf.Argon2id, DEFAULT_ITER_TIME, false⟩
        sampleRootVol (some "/dev/mapper/cryptlvm") (some "33cc-luks") none =
      Except.ok ["rd.luks.name=33cc-luks=cryptlvm root=" ++
        lvm_mapper_path "vg0" "root"] ∧
    _get_kernel_params_partition
        ⟨EncryptionType.NoEncryption, "pw", [], [],
         LuksPbkdf.Argon2id, DEFAULT_ITER_TIME, false⟩
        sampleEncRoot true true =
      ["root=PARTUUID=22bb-part"] :=
  ⟨(kernel_params_root_identification
      ⟨EncryptionType.Luks, "pw", [sampleEncRoot], [],
       LuksPbkdf.Argon2id, DEFAULT_ITER_TIME, false⟩
      sampleEncRoot sampleRootVol "11aa-luks" "22bb-part" "vg0"
      "/dev/mapper/cryptlvm").1 rfl (List.mem_singleton_self _) rfl,
   ((kernel_params_root_identification
      ⟨EncryptionType.LvmOnLuks, "pw", [], [sampleRootVol],
       LuksPbkdf.Argon2id, DEFAULT_ITER_TIME, false⟩
      sampleEncRoot sampleRootVol "33cc-luks" "22bb-part" "vg0"
      "/dev/mapper/cryptlvm").2.1 rfl rfl rfl).1,
   (kernel_params_root_identification
      ⟨EncryptionType.NoEncryption, "pw", [], [],
       LuksPbkdf.Argon2id, DEFAULT_ITER_TIME, false⟩
      sampleEncRoot sampleRootVol "11aa-luks" "22bb-part" "vg0"
      "/dev/mapper/cryptlvm").2.2 (by decide) rfl⟩

/-! ## Keyfile / auto-unlock manager (claim C4) -/

/-- Effects performed by the keyfile generation step, in program order:
`createRootKeyfile path numBytes mode` is the keyfile written into the
target tree (`write_bytes(os.urandom(2048))` followed by `chmod(0o000)`),
`addKey dev keyfile password` is the LUKS key slot added to the container
backed by `dev` using the known passphrase, and `createKeyfileGeneric
dev` is a `Luks2.create_keyfile` call for a non-root element (its
internals live in lib/luks.py, which is not under src/). -/
inductive KeyEffect where
  | createRootKeyfile (path : String) (numBytes : Nat) (mode : Nat)
  | addKey (dev : String) (keyfile : String) (password : String)
  | createKeyfileGeneric (dev : String)
deriving DecidableEq, Repr

/-- Embedding of `Installer._create_root_keyfile` (installer.py lines
511-526): write 2048 bytes of secure random data at
`<target>/etc/cryptsetup-keys.d/<mapper>.key`, set its permission bits to
000, and add it as a LUKS key slot using the already-known password. -/
def _create_root_keyfile (target : String) (dev : String) (password : String)
    (mapper_name : String) : List KeyEffect :=
  let kf_path := target ++ "/etc/cryptsetup-keys.d/" ++ mapper_name ++ ".key"
  [KeyEffect.createRootKeyfile kf_path 2048 0,
   KeyEffect.addKey dev kf_path password]

/-- Embedding of `Installer._generate_key_files_partitions` (installer.py
lines 471-492).  The policy predicate
`DiskEncryption.should_generate_encryption_file` lives in the device
model (not under src/) and enters abstractly as `should_gen`; it cannot
matter for a root element, whose non-root keyfile branch is
short-circuited by `not part_mod.is_root()`.  A partition without a
device path makes the `safe_dev_path` access raise. -/
def _generate_key_files_partitions
    (should_gen : PartitionModification → Bool) (target : String)
    (de : DiskEncryption) :
    List PartitionModification → Except String (List KeyEffect)
  | [] => Except.ok []
  | part_mod :: rest =>
    match part_mod.dev_path with
    | none => Except.error "dev_path is not set"
    | some dev =>
      let here :=
        (if should_gen part_mod ∧ ¬ part_mod.is_root then
          [KeyEffect.createKeyfileGeneric dev]
        else []) ++
        (if de.auto_unlock_root ∧ part_mod.is_root then
          _create_root_keyfile target dev de.encryption_password "root"
        else [])
      match _generate_key_files_partitions should_gen target de rest with
      | Except.ok tail => Except.ok (here ++ tail)
      | Except.error e => Except.error e

/-- Embedding of `Installer._generate_key_file_lvm_volumes` (installer.py
lines 494-509), the LuksOnLvm counterpart over LVM volumes. -/
def _generate_key_file_lvm_volumes
    (should_gen_vol : LvmVolume → Bool) (target : String)
    (de : DiskEncryption) : List LvmVolume → Except String (List KeyEffect)
  | [] => Except.ok []
  | vol :: rest =>
    match vol.dev_path with
    | none => Except.error "dev_path is not set"
    | some dev =>
      let here :=
        (if should_gen_vol vol ∧ ¬ vol.is_root then
          [KeyEffect.createKeyfileGeneric dev]
        else []) ++
        (if de.auto_unlock_root ∧ vol.is_root then
          _create_root_keyfile target dev de.encryption_password "root"
        else [])
      match _generate_key_file_lvm_volumes should_gen_vol target de rest with
      | Except.ok tail => Except.ok (here ++ tail)
      | Except.error e => Except.error e

/-- The LvmOnLuks arm of `generate_key_files` (installer.py lines
455-469): when auto-unlock is requested, the first encrypted partition
that is neither boot nor ESP gets a root keyfile under the `cryptlvm`
mapper name, and the loop breaks. -/
def lvm_on_luks_root_keyfile (target : String) (de : DiskEncryption) :
    List PartitionModification → Except String (List KeyEffect)
  | [] => Except.ok []
  | p :: rest =>
    if p.is_boot ∨ p.is_efi then lvm_on_luks_root_keyfile target de rest
    else
      match p.dev_path with
      | none => Except.error "dev_path is not set"
      | some dev =>
        Except.ok (_create_root_keyfile target dev de.encryption_password "cryptlvm")

/-- Embedding of `Installer.generate_key_files` (installer.py lines
449-469): dispatch on the encryption topology. -/
def generate_key_files (should_gen : PartitionModification → Bool)
    (should_gen_vol : LvmVolume → Bool) (target : String)
    (de : DiskEncryption) : Except String (List KeyEffect) :=
  match de.encryption_type with
  | EncryptionType.Luks =>
    _generate_key_files_partitions should_gen target de de.partitions
  | EncryptionType.LuksOnLvm =>
    _generate_key_file_lvm_volumes should_gen_vol target de de.lvm_volumes
  | EncryptionType.LvmOnLuks =>
    if de.auto_unlock_root then
      lvm_on_luks_root_keyfile target de de.partitions
    else Except.ok []
  | EncryptionType.NoEncryption => Except.ok []

/-- C4: with encryption type Luks, auto_unlock_root enabled and the root
partition as the only encrypted element, exactly one keyfile is created —
at `<target>/etc/cryptsetup-keys.d/root.key`, 2048 random bytes, mode
000 — and exactly one LUKS key slot is added to the root container using
the known passphrase; with auto_unlock_root disabled no keyfile is
created for the root element. -/
theorem generate_key_files_root_scope
    (should_gen : PartitionModification → Bool)
    (should_gen_vol : LvmVolume → Bool) (target dev : String)
    (de : DiskEncryption) (root : PartitionModification)
    (hty : de.encryption_type = EncryptionType.Luks)
    (hparts : de.partitions = [root])
    (hroot : root.is_root = true)
    (hdev : root.dev_path = some dev) :
    (de.auto_unlock_root = true →
      generate_key_files should_gen should_gen_vol target de =
        Except.ok
          [KeyEffect.createRootKeyfile
            (target ++ "/etc/cryptsetup-keys.d/root.key") 2048 0,
           KeyEffect.addKey dev
            (target ++ "/etc/cryptsetup-keys.d/root.key")
            de.encryption_password]) ∧
    (de.auto_unlock_root = false →
      generate_key_files should_gen should_gen_vol target de =
        Except.ok []) := by
  constructor <;> intro ha <;>
    simp [generate_key_files, hty, hparts, _generate_key_files_partitions,
      hdev, hroot, ha, _create_root_keyfile]
  rw [String.append_assoc, String.append_assoc]
  congr 1

/-- Auto-unlock Luks configuration over the sample encrypted root, used
by the C4 witness. -/
def sampleLuksAuto (auto : Bool) : DiskEncryption :=
  ⟨EncryptionType.Luks, "pw", [sampleEncRoot], [],
   LuksPbkdf.Argon2id, DEFAULT_ITER_TIME, auto⟩

/-- Closed witness for the C4 keyfile theorem at a concrete session. -/
theorem generate_key_files_root_scope_witness :
    generate_key_files (fun _ => true) (fun _ => true) "/mnt/archinstall"
        (sampleLuksAuto true) =
      Except.ok
        [KeyEffect.createRootKeyfile
          "/mnt/archinstall/etc/cryptsetup-keys.d/root.key" 2048 0,
         KeyEffect.addKey "/dev/sda2"
          "/mnt/archinstall/etc/cryptsetup-keys.d/root.key" "pw"] ∧
    generate_key_files (fun _ => true) (fun _ => true) "/mnt/archinstall"
        (sampleLuksAuto false) =
      Except.ok [] :=
  ⟨(generate_key_files_root_scope (fun _ => true) (fun _ => true)
      "/mnt/archinstall" "/dev/sda2" (sampleLuksAuto true) sampleEncRoot
      rfl rfl (by decide) rfl).1 rfl,
   (generate_key_files_root_scope (fun _ => true) (fun _ => true)
      "/mnt/archinstall" "/dev/sda2" (sampleLuksAuto false) sampleEncRoot
      rfl rfl (by decide) rfl).2 rfl⟩

/-! ## Bootloader hardware checks (claim C6) -/

/-- Errors raised by the bootloader installation steps. -/
inductive InstallError where
  | HardwareIncompatibilityError
  | ValueError (msg : String)
  | DiskError (msg : String)
deriving DecidableEq, Repr

/-- Side effects of a bootloader installation step, in program order: a
package strap into the target (delegated to the external package
installation facility, spec §6), an external `efibootmgr` invocation
(writes firmware variables, not target files), a chrooted command run in
the target, and a file written into the target tree. -/
inductive InstallEffect where
  | strap (pkg : String)
  | sysCommand (cmd : List String)
  | archChroot (cmd : String)
  | writeTargetFile (path : String)
deriving DecidableEq, Repr

/-- Whether an effect writes into the target tree by the bootloader step
itself: an explicit config write or a chrooted installer run. -/
def InstallEffect.writes_target_tree : InstallEffect → Bool
  | .writeTargetFile _ => true
  | .archChroot _ => true
  | _ => false

/-- Embedding of `Installer._add_efistub_bootloader` (installer.py lines
1575-1628): strap `efibootmgr`, raise the hardware-incompatibility error
on a non-UEFI system, then create one firmware boot entry per kernel via
`efibootmgr --create`.  Returns the effects performed, in order, with
the outcome. -/
def _add_efistub_bootloader (has_uefi : Bool) (kernels : List String)
    (kernel_params : List String) (boot_partn : Nat) (parent_dev : String)
    (uki_enabled : Bool) : List InstallEffect × Option InstallError :=
  let t0 := [InstallEffect.strap "efibootmgr"]
  if ¬ has_uefi then
    (t0, some InstallError.HardwareIncompatibilityError)
  else
    let loader := fun (k : String) =>
      if uki_enabled then "/EFI/Linux/arch-" ++ k ++ ".efi"
      else "/vmlinuz-" ++ k
    let cmdline := fun (k : String) =>
      if uki_enabled then ([] : List String)
      else [String.intercalate " "
        (("initrd=/initramfs-" ++ k ++ ".img") :: kernel_params)]
    let cmds := kernels.map (fun k =>
      InstallEffect.sysCommand
        (["efibootmgr", "--create", "--disk", parent_dev, "--part",
          toString boot_partn, "--label", "Arch Linux (" ++ k ++ ")",
          "--loader", loader k, "--unicode"] ++ cmdline k ++ ["--verbose"]))
    (t0 ++ cmds, none)

/-- Embedding of `Installer._add_refind_bootloader` (installer.py lines
1630-1704): strap `refind`, raise the hardware-incompatibility error on a
non-UEFI system, validate the ESP, run `refind-install` in the target and
write `refind_linux.conf` (only the written path is modelled — the
contents do not matter to any claim).  `chroot_fails` models a failing
`refind-install` run. -/
def _add_refind_bootloader (has_uefi : Bool) (target : String)
    (boot_partition : PartitionModification)
    (efi_partition : Option PartitionModification)
    (chroot_fails : Bool) : List InstallEffect × Option InstallError :=
  let t0 := [InstallEffect.strap "refind"]
  if ¬ has_uefi then
    (t0, some InstallError.HardwareIncompatibilityError)
  else
    match efi_partition with
    | none =>
      (t0, some (InstallError.ValueError "Could not detect EFI system partition"))
    | some efi =>
      match efi.mountpoint with
      | none =>
        (t0, some (InstallError.ValueError "EFI system partition is not mounted"))
      | some _ =>
        let t1 := t0 ++ [InstallEffect.archChroot "refind-install"]
        if chroot_fails then
          (t1, some (InstallError.DiskError "Could not install rEFInd"))
        else
          match boot_partition.mountpoint with
          | none =>
            (t1, some (InstallError.ValueError
              "Boot partition is not mounted, cannot write rEFInd config"))
          | some boot_mp =>
            let boot_is_separate :=
              boot_partition ≠ efi ∧ boot_partition.dev_path ≠ efi.dev_path
            let config_path :=
              if boot_is_separate then target ++ boot_mp ++ "/refind_linux.conf"
              else target ++ "/boot/refind_linux.conf"
            (t1 ++ [InstallEffect.writeTargetFile config_path], none)

/-- C6: on a non-UEFI system both the Efistub and the rEFInd installation
steps stop with the hardware-incompatibility error having performed only
the package strap: nothing has been written into the target tree by the
step itself (no config write, no chrooted installer run); the strap call
is the external package installation facility of spec §6. -/
theorem uefi_bootloaders_fail_fast_on_bios (kernels : List String)
    (kernel_params : List String) (partn : Nat) (parent_dev target : String)
    (uki : Bool) (boot : PartitionModification)
    (efi : Option PartitionModification) (chroot_fails : Bool) :
    _add_efistub_bootloader false kernels kernel_params partn parent_dev uki =
      ([InstallEffect.strap "efibootmgr"],
       some InstallError.HardwareIncompatibilityError) ∧
    _add_refind_bootloader false target boot efi chroot_fails =
      ([InstallEffect.strap "refind"],
       some InstallError.HardwareIncompatibilityError) ∧
    ([InstallEffect.strap "efibootmgr"].all
      (fun e => !e.writes_target_tree)) = true ∧
    ([InstallEffect.strap "refind"].all
      (fun e => !e.writes_target_tree)) = true := by
  refine ⟨?_, ?_, rfl, rfl⟩ <;>
    simp [_add_efistub_bootloader, _add_refind_bootloader]

/-! ## Pre-bootloader sanity check (claim C7) -/

/-- Embedding of `Installer._verify_boot_part` (installer.py lines
234-249): look up the block device mounted at `<target>/boot` and raise a
DiskError when its size is below 200 MiB.  The lsblk lookup enters as the
optional size of that device (`none`: nothing mounted at `/boot`);
`Size` comparison is by byte count. -/
def _verify_boot_part (boot_mount_size : Option Size) : Option InstallError :=
  match boot_mount_size with
  | some sz =>
    if sz.toBytes < (Size.mk 200 Unit'.MiB SectorSize.default').toBytes then
      some (InstallError.DiskError
        "The boot partition mounted at /boot is not large enough to install a boot loader.")
    else none
  | none => none

/-- Embedding of `Installer.sanity_check` (installer.py lines 251-253):
it runs only `_verify_service_stop` — the `_verify_boot_part()` call is
commented out at installer.py line 252.  `_verify_service_stop` waits on
NTP / reflector / keyring states and at most logs warnings; it raises
nothing.  The boot-mount size is taken as an argument to exhibit that
the check never inspects it. -/
def sanity_check (_boot_mount_size : Option Size) : Option InstallError :=
  none

/-- C7: the boot-partition size check is disabled in the code: for a
mounted `/boot` of 199 MiB, `_verify_boot_part` would raise the disk
error, but `sanity_check` — whose call to `_verify_boot_part` is
commented out (installer.py line 252) — raises nothing, so the
pre-bootloader sanity check passes, against the claim and the spec's
testable property. -/
theorem sanity_check_skips_boot_part_check :
    (_verify_boot_part (some ⟨199, Unit'.MiB, ⟨512⟩⟩)).isSome = true ∧
    sanity_check (some ⟨199, Unit'.MiB, ⟨512⟩⟩) = none :=
  ⟨by decide, rfl⟩
